import Mathlib

/-!
Verification of the XModem protocol engine of this repository.

The two source files (src/unnamed/part_000 and src/zad2/src/x.cpp) are
near-identical implementations of the same protocol.  The definitions
below are a shallow embedding of src/unnamed/part_000, which the claims
cite as the primary code; where zad2 differs (the output-file open check
in XModem::receiveFile) a separate definition models that difference.

Machine integers are modelled as Nat with explicit truncation:
uint8 arithmetic is `% 256`, uint16 arithmetic is `% 65536`.
The serial channel is modelled as a function from the index of the read
operation to the result of that read; a failed or timed-out read is
`ReadRes.fail`, a successful single-byte read is `ReadRes.byte b`, and a
successful bulk read is `ReadRes.blk data`.
-/

set_option maxHeartbeats 1000000
set_option maxRecDepth 100000

namespace XModemTiPS

/-- Control byte SOH = 0x01 (src/unnamed/part_000 line 6). -/
def SOH : Nat := 1

/-- Control byte EOT = 0x04. -/
def EOT : Nat := 4

/-- Control byte ACK = 0x06. -/
def ACK : Nat := 6

/-- Control byte NAK = 0x15. -/
def NAK : Nat := 21

/-- Control byte CAN = 0x18. -/
def CAN : Nat := 24

/-- Control byte C = 0x43 (CRC-mode request). -/
def Cbyte : Nat := 67

/-- BLOCK_SIZE = 128 (src/unnamed/part_000 line 13). -/
def BLOCK_SIZE : Nat := 128

/-- MAX_RETRIES = 10 (src/unnamed/part_000 line 15). -/
def MAX_RETRIES : Nat := 10

/-- `calculateChecksum` (src/unnamed/part_000 lines 55-61): a uint8
accumulator summed over all bytes; uint8 addition wraps, hence `% 256`
at every step. -/
def calculateChecksum (data : List Nat) : Nat :=
  data.foldl (fun sum b => (sum + b) % 256) 0

/-- `crc16tab` (src/unnamed/part_000 lines 20-53), the 256-entry CRC16
lookup table, copied literally from the source. -/
def crc16tab : List Nat :=
  [0x0000, 0x1021, 0x2042, 0x3063, 0x4084, 0x50a5, 0x60c6, 0x70e7,
   0x8108, 0x9129, 0xa14a, 0xb16b, 0xc18c, 0xd1ad, 0xe1ce, 0xf1ef,
   0x1231, 0x0210, 0x3273, 0x2252, 0x52b5, 0x4294, 0x72f7, 0x62d6,
   0x9339, 0x8318, 0xb37b, 0xa35a, 0xd3bd, 0xc39c, 0xf3ff, 0xe3de,
   0x2462, 0x3443, 0x0420, 0x1401, 0x64e6, 0x74c7, 0x44a4, 0x5485,
   0xa56a, 0xb54b, 0x8528, 0x9509, 0xe5ee, 0xf5cf, 0xc5ac, 0xd58d,
   0x3653, 0x2672, 0x1611, 0x0630, 0x76d7, 0x66f6, 0x5695, 0x46b4,
   0xb75b, 0xa77a, 0x9719, 0x8738, 0xf7df, 0xe7fe, 0xd79d, 0xc7bc,
   0x48c4, 0x58e5, 0x6886, 0x78a7, 0x0840, 0x1861, 0x2802, 0x3823,
   0xc9cc, 0xd9ed, 0xe98e, 0xf9af, 0x8948, 0x9969, 0xa90a, 0xb92b,
   0x5af5, 0x4ad4, 0x7ab7, 0x6a96, 0x1a71, 0x0a50, 0x3a33, 0x2a12,
   0xdbfd, 0xcbdc, 0xfbbf, 0xeb9e, 0x9b79, 0x8b58, 0xbb3b, 0xab1a,
   0x6ca6, 0x7c87, 0x4ce4, 0x5cc5, 0x2c22, 0x3c03, 0x0c60, 0x1c41,
   0xedae, 0xfd8f, 0xcdec, 0xddcd, 0xad2a, 0xbd0b, 0x8d68, 0x9d49,
   0x7e97, 0x6eb6, 0x5ed5, 0x4ef4, 0x3e13, 0x2e32, 0x1e51, 0x0e70,
   0xff9f, 0xefbe, 0xdfdd, 0xcffc, 0xbf1b, 0xaf3a, 0x9f59, 0x8f78,
   0x9188, 0x81a9, 0xb1ca, 0xa1eb, 0xd10c, 0xc12d, 0xf14e, 0xe16f,
   0x1080, 0x00a1, 0x30c2, 0x20e3, 0x5004, 0x4025, 0x7046, 0x6067,
   0x83b9, 0x9398, 0xa3fb, 0xb3da, 0xc33d, 0xd31c, 0xe37f, 0xf35e,
   0x02b1, 0x1290, 0x22f3, 0x32d2, 0x4235, 0x5214, 0x6277, 0x7256,
   0xb5ea, 0xa5cb, 0x95a8, 0x8589, 0xf56e, 0xe54f, 0xd52c, 0xc50d,
   0x34e2, 0x24c3, 0x14a0, 0x0481, 0x7466, 0x6447, 0x5424, 0x4405,
   0xa7db, 0xb7fa, 0x8799, 0x97b8, 0xe75f, 0xf77e, 0xc71d, 0xd73c,
   0x26d3, 0x36f2, 0x0691, 0x16b0, 0x6657, 0x7676, 0x4615, 0x5634,
   0xd94c, 0xc96d, 0xf90e, 0xe92f, 0x99c8, 0x89e9, 0xb98a, 0xa9ab,
   0x5844, 0x4865, 0x7806, 0x6827, 0x18c0, 0x08e1, 0x3882, 0x28a3,
   0xcb7d, 0xdb5c, 0xeb3f, 0xfb1e, 0x8bf9, 0x9bd8, 0xabbb, 0xbb9a,
   0x4a75, 0x5a54, 0x6a37, 0x7a16, 0x0af1, 0x1ad0, 0x2ab3, 0x3a92,
   0xfd2e, 0xed0f, 0xdd6c, 0xcd4d, 0xbdaa, 0xad8b, 0x9de8, 0x8dc9,
   0x7c26, 0x6c07, 0x5c64, 0x4c45, 0x3ca2, 0x2c83, 0x1ce0, 0x0cc1,
   0xef1f, 0xff3e, 0xcf5d, 0xdf7c, 0xaf9b, 0xbfba, 0x8fd9, 0x9ff8,
   0x6e17, 0x7e36, 0x4e55, 0x5e74, 0x2e93, 0x3eb2, 0x0ed1, 0x1ef0]

/-- `calculateCRC16` (src/unnamed/part_000 lines 63-69): uint16 crc
starting at 0; each step is `(crc << 8) ^ crc16tab[((crc >> 8) ^ byte) & 0xFF]`
truncated to 16 bits by the uint16 assignment. -/
def calculateCRC16 (data : List Nat) : Nat :=
  data.foldl
    (fun crc b => ((crc <<< 8) ^^^ crc16tab.getD (((crc >>> 8) ^^^ b) &&& 255) 0) % 65536)
    0

/-- One shift-and-conditionally-xor round of the canonical CRC16-CCITT
generator for polynomial 0x1021 (4129), truncated to 16 bits.
This is the spec-side reference definition used to check `crc16tab`. -/
def crcEntryStep (crc : Nat) : Nat :=
  if crc &&& 32768 = 0 then (crc <<< 1) % 65536
  else ((crc <<< 1) ^^^ 4129) % 65536

/-- The canonical CRC16-CCITT table entry for index `n`: inject the index
into the high byte and run eight generator rounds.  Spec-side reference
definition (spec section 4.1). -/
def crcEntry (n : Nat) : Nat :=
  Nat.iterate crcEntryStep 8 (n <<< 8)

/-- Result of one read operation on the serial channel.
`fail` covers both a ReadFile error (-1) and a timeout (0 bytes);
`byte b` is a successful `readByteWithTimeout`; `blk d` is a successful
bulk `readWithTimeout` that returned `d.length` bytes. -/
inductive ReadRes where
  | fail : ReadRes
  | byte (b : Nat) : ReadRes
  | blk (data : List Nat) : ReadRes
deriving DecidableEq, Repr

/-- The mutable local state of `receiveFile` (src/unnamed/part_000
lines 129-137): the expected block number (uint8), the last header byte
read, the bytes written to the output file so far, and the index of the
next read operation on the channel. -/
structure RState where
  expectedBlock : Nat
  headerByte : Nat
  fileData : List Nat
  pos : Nat
deriving DecidableEq, Repr

/-- The byte the receiver uses to announce its mode and to re-request a
block: C in CRC mode, NAK otherwise (src/unnamed/part_000 lines 140,
161-162). -/
def modeByte (u : Bool) : Nat := if u then Cbyte else NAK

/-- Outcome of structurally parsing one frame body after SOH
(src/unnamed/part_000 lines 160-205): `reqMode k` is a recoverable
failure answered with the mode byte after `k` reads (block-number read
failure, complement mismatch, short payload); `reqNak k` is a
recoverable failure answered with NAK (trailer read failure, bad
checksum/CRC); `okF bn d k` is a validated frame with block number `bn`
and payload `d` after `k` reads. -/
inductive ParseRes where
  | reqMode (k : Nat) : ParseRes
  | reqNak (k : Nat) : ParseRes
  | okF (bn : Nat) (d : List Nat) (k : Nat) : ParseRes
deriving DecidableEq, Repr

/-- Reading and validating one frame body, mirroring src/unnamed/part_000
lines 160-210: read block number and complement (short-circuit, so a
failed first read consumes one operation), check
`blockNumber + blockNumberComplement != 255`, read the 128-byte payload
(any result other than exactly 128 bytes is a short read), then read and
compare the 2-byte CRC (CRC mode) or 1-byte checksum. -/
def parseFrame (u : Bool) (c : Nat → ReadRes) (pos : Nat) : ParseRes :=
  match c pos with
  | ReadRes.byte bn =>
    match c (pos + 1) with
    | ReadRes.byte comp =>
      if bn + comp ≠ 255 then ParseRes.reqMode 2
      else
        match c (pos + 2) with
        | ReadRes.blk d =>
          if d.length ≠ BLOCK_SIZE then ParseRes.reqMode 3
          else
            if u then
              match c (pos + 3) with
              | ReadRes.byte hi =>
                match c (pos + 4) with
                | ReadRes.byte lo =>
                  if (hi <<< 8 ||| lo) = calculateCRC16 d then ParseRes.okF bn d 5
                  else ParseRes.reqNak 5
                | _ => ParseRes.reqNak 5
              | _ => ParseRes.reqNak 4
            else
              match c (pos + 3) with
              | ReadRes.byte cs =>
                if cs = calculateChecksum d then ParseRes.okF bn d 4
                else ParseRes.reqNak 4
              | _ => ParseRes.reqNak 4
        | _ => ParseRes.reqMode 3
    | _ => ParseRes.reqMode 2
  | _ => ParseRes.reqMode 1

/-- The duplicate/sequencing policy applied to a fully validated block
(src/unnamed/part_000 lines 212-225).  Returns the bytes written in
response, the new expected block (uint8 increment), the new file
contents, and whether the code falls through to read the next header
(`true`) or `continue`s (`false`).  The C++ comparison
`blockNumber == (expectedBlock - 1)` is over int-promoted values, which
for byte-valued operands is equivalent to `bn + 1 = eb`. -/
def processValidBlock (eb : Nat) (file : List Nat) (bn : Nat) (d : List Nat) :
    List Nat × Nat × List Nat × Bool :=
  if bn + 1 = eb ∧ 1 < eb then ([ACK], eb, file, true)
  else if bn = eb then ([ACK], (eb + 1) % 256, file ++ d, true)
  else ([NAK], eb, file, false)

/-- Outcome of one iteration of the receiver's `while (receiving)` loop:
`next` continues the loop, `finish` corresponds to `receiving = false`.
Both carry the bytes written to the channel during the iteration and the
updated state. -/
inductive RStepOut where
  | next (writes : List Nat) (st : RState) : RStepOut
  | finish (writes : List Nat) (st : RState) : RStepOut
deriving DecidableEq, Repr

/-- The state after a loop iteration, whichever way it ended. -/
def RStepOut.state : RStepOut → RState
  | RStepOut.next _ st => st
  | RStepOut.finish _ st => st

/-- The next-header read after an accepted or duplicate block
(src/unnamed/part_000 lines 227-241): a failed read answers NAK and
keeps the old header byte; EOT answers ACK and finishes; SOH loops with
no further write; any other byte answers NAK and loops. -/
def afterPolicy (c : Nat → ReadRes) (oldHeader : Nat) (p : Nat)
    (ws : List Nat) (eb2 : Nat) (f2 : List Nat) : RStepOut :=
  match c p with
  | ReadRes.byte h =>
    if h = EOT then RStepOut.finish (ws ++ [ACK]) ⟨eb2, h, f2, p + 1⟩
    else if h = SOH then RStepOut.next ws ⟨eb2, h, f2, p + 1⟩
    else RStepOut.next (ws ++ [NAK]) ⟨eb2, h, f2, p + 1⟩
  | _ => RStepOut.next (ws ++ [NAK]) ⟨eb2, oldHeader, f2, p + 1⟩

/-- One iteration of the receiver's block-reception loop
(src/unnamed/part_000 lines 158-256).  With SOH in hand the frame is
parsed and validated; a validated block goes through the
duplicate/sequencing policy, and an accepted or duplicate block is
followed by the next-header read inside the same iteration (EOT there
finishes with ACK, a failed read or an unexpected byte answers NAK and
loops).  With EOT in hand the loop ACKs and finishes; any other header
byte answers NAK and re-reads the header. -/
def rstep (u : Bool) (c : Nat → ReadRes) (st : RState) : RStepOut :=
  if st.headerByte = SOH then
    match parseFrame u c st.pos with
    | ParseRes.reqMode k => RStepOut.next [modeByte u] { st with pos := st.pos + k }
    | ParseRes.reqNak k => RStepOut.next [NAK] { st with pos := st.pos + k }
    | ParseRes.okF bn d k =>
      if (processValidBlock st.expectedBlock st.fileData bn d).2.2.2 then
        afterPolicy c st.headerByte (st.pos + k)
          (processValidBlock st.expectedBlock st.fileData bn d).1
          (processValidBlock st.expectedBlock st.fileData bn d).2.1
          (processValidBlock st.expectedBlock st.fileData bn d).2.2.1
      else
        RStepOut.next (processValidBlock st.expectedBlock st.fileData bn d).1
          { st with pos := st.pos + k }
  else if st.headerByte = EOT then RStepOut.finish [ACK] st
  else
    match c st.pos with
    | ReadRes.byte h => RStepOut.next [NAK] ⟨st.expectedBlock, h, st.fileData, st.pos + 1⟩
    | _ => RStepOut.next [NAK] { st with pos := st.pos + 1 }

/-- Fuel-bounded driver of the receiver's block-reception loop.  The
source loop has no retry counter, so it need not terminate; `none`
means the loop is still running after `fuel` iterations.  A terminating
run returns the Boolean result of `receiveFile` (the code after the
loop is `return true`), the accumulated channel writes, and the final
state. -/
def rrunLoop (u : Bool) (c : Nat → ReadRes) : Nat → RState → Option (Bool × List Nat × RState)
  | 0, _ => none
  | fuel + 1, st =>
    match rstep u c st with
    | RStepOut.finish ws st2 => some (true, ws, st2)
    | RStepOut.next ws st2 =>
      match rrunLoop u c fuel st2 with
      | none => none
      | some (b, ws2, st3) => some (b, ws ++ ws2, st3)

/-- Outcome of the receiver's start phase (src/unnamed/part_000
lines 139-157): `failed` is the fall-through with `receiving == false`
(`return false`), `emptyDone` is the EOT/empty-file case
(`ACK`, `return true`), `enter` is the SOH case carrying the channel
position at which the block loop starts. -/
inductive StartOut where
  | failed (writes : List Nat) : StartOut
  | emptyDone (writes : List Nat) : StartOut
  | enter (writes : List Nat) (pos : Nat) : StartOut
deriving DecidableEq, Repr

/-- Prepend this attempt's writes to the start-phase outcome. -/
def StartOut.prep (w : List Nat) : StartOut → StartOut
  | StartOut.failed ws => StartOut.failed (w ++ ws)
  | StartOut.emptyDone ws => StartOut.emptyDone (w ++ ws)
  | StartOut.enter ws pos => StartOut.enter (w ++ ws) pos

/-- The receiver's start phase, mirroring `for (int i = 0; i < 6; ++i)`
(src/unnamed/part_000 lines 139-154): each attempt writes the mode byte
and reads one byte; SOH enters the block loop, EOT ACKs and finishes
with an empty file, anything else (including a failed read) is another
attempt. -/
def rstart (u : Bool) (c : Nat → ReadRes) : Nat → Nat → StartOut
  | 0, _ => StartOut.failed []
  | n + 1, pos =>
    match c pos with
    | ReadRes.byte h =>
      if h = SOH then StartOut.enter [modeByte u] (pos + 1)
      else if h = EOT then StartOut.emptyDone [modeByte u, ACK]
      else StartOut.prep [modeByte u] (rstart u c n (pos + 1))
    | _ => StartOut.prep [modeByte u] (rstart u c n (pos + 1))

/-- `receiveFile` of src/unnamed/part_000 (lines 129-260), over a
channel `c` and a fuel bound for the (unbounded) block loop.  Returns
`none` when the block loop is still running after `fuel` iterations,
otherwise `some (result, output file bytes, channel writes)`.

The first parameter models whether opening the output sink succeeded.
The source constructs `std::ofstream file(path, ...)` and never checks
its state, so the parameter is deliberately unused: the session proceeds
identically whether or not the sink could be opened. -/
def receiveFileP0 (_fileOk : Bool) (u : Bool) (c : Nat → ReadRes) (fuel : Nat) :
    Option (Bool × List Nat × List Nat) :=
  match rstart u c 6 0 with
  | StartOut.failed ws => some (false, [], ws)
  | StartOut.emptyDone ws => some (true, [], ws)
  | StartOut.enter ws pos =>
    match rrunLoop u c fuel ⟨1, SOH, [], pos⟩ with
    | none => none
    | some (b, ws2, st) => some (b, st.fileData, ws ++ ws2)

/-- `XModem::receiveFile` of src/zad2/src/x.cpp (lines 300-481).  Its
handshake and block loop are logic-identical to src/unnamed/part_000
(same six start attempts, same loop body), but it additionally checks
`if (!file) return false` before any channel I/O (lines 302-305).  The
60-second wall-clock check of its start loop concerns real time and is
not modelled; the attempt count (6) bounds the phase identically. -/
def receiveFileZ2 (fileOk : Bool) (u : Bool) (c : Nat → ReadRes) (fuel : Nat) :
    Option (Bool × List Nat × List Nat) :=
  if fileOk then receiveFileP0 true u c fuel else some (false, [], [])

/-- Frame construction by the sender (src/unnamed/part_000
lines 333-352): `SOH, blockNumber, 255 - blockNumber, payload,` then a
2-byte big-endian CRC in CRC mode or a 1-byte checksum otherwise.  The
buffer handed in is always exactly 128 bytes in the source (padded
beforehand). -/
def mkPacket (u : Bool) (bn : Nat) (buf : List Nat) : List Nat :=
  if u then
    [SOH, bn, 255 - bn] ++ buf ++
      [(calculateCRC16 buf >>> 8) &&& 255, calculateCRC16 buf &&& 255]
  else
    [SOH, bn, 255 - bn] ++ buf ++ [calculateChecksum buf]

/-- Pad a final short chunk with SUB (0x1A = 26) bytes up to 128
(src/unnamed/part_000 lines 323-326). -/
def padChunk (l : List Nat) : List Nat :=
  l ++ List.replicate (BLOCK_SIZE - l.length) 26

/-- Outcome of the sender's per-block attempt loop: acknowledged,
cancelled by CAN, or retry budget exhausted; each carries the packets
written and the next channel read position. -/
inductive AttemptOut where
  | acked (writes : List (List Nat)) (pos : Nat) : AttemptOut
  | canceled (writes : List (List Nat)) (pos : Nat) : AttemptOut
  | exhausted (writes : List (List Nat)) (pos : Nat) : AttemptOut
deriving DecidableEq, Repr

/-- Prepend this attempt's writes to the attempt-loop outcome. -/
def AttemptOut.prep (w : List (List Nat)) : AttemptOut → AttemptOut
  | AttemptOut.acked ws p => AttemptOut.acked (w ++ ws) p
  | AttemptOut.canceled ws p => AttemptOut.canceled (w ++ ws) p
  | AttemptOut.exhausted ws p => AttemptOut.exhausted (w ++ ws) p

/-- The sender's per-block loop
`while (!blockAcked && retries < MAX_RETRIES)` (src/unnamed/part_000
lines 331-369), with the remaining budget as the recursion argument
(`MAX_RETRIES` at entry, since `retries` starts at 0).  Every iteration
rebuilds and writes the same packet, then reads one response byte: ACK
accepts, CAN aborts the whole transfer, NAK / any other byte / a failed
read just consume one retry. -/
def attemptLoop (u : Bool) (bn : Nat) (buf : List Nat) (r : Nat → ReadRes) :
    Nat → Nat → AttemptOut
  | 0, pos => AttemptOut.exhausted [] pos
  | n + 1, pos =>
    match r pos with
    | ReadRes.byte b =>
      if b = ACK then AttemptOut.acked [mkPacket u bn buf] (pos + 1)
      else if b = CAN then AttemptOut.canceled [mkPacket u bn buf] (pos + 1)
      else AttemptOut.prep [mkPacket u bn buf] (attemptLoop u bn buf r n (pos + 1))
    | _ => AttemptOut.prep [mkPacket u bn buf] (attemptLoop u bn buf r n (pos + 1))

/-- The sender's end-of-transmission loop
`while (!eotAcked && retries < MAX_RETRIES)` (src/unnamed/part_000
lines 301-314): write EOT, read one byte, only ACK succeeds; returns
whether EOT was acknowledged, the writes, and the next read position. -/
def eotLoop (r : Nat → ReadRes) : Nat → Nat → Bool × List (List Nat) × Nat
  | 0, pos => (false, [], pos)
  | n + 1, pos =>
    match r pos with
    | ReadRes.byte b =>
      if b = ACK then (true, [[EOT]], pos + 1)
      else
        match eotLoop r n (pos + 1) with
        | (ok, ws, p2) => (ok, [EOT] :: ws, p2)
    | _ =>
      match eotLoop r n (pos + 1) with
      | (ok, ws, p2) => (ok, [EOT] :: ws, p2)

/-- The sender's outer block loop (src/unnamed/part_000 lines 295-374):
read the next up-to-128-byte chunk of the file; a zero-byte read means
end of file and triggers the EOT loop; otherwise pad the chunk, run the
per-block attempt loop, and on ACK advance the uint8 block number and
recurse on the rest of the file. -/
def sendBlocks (u : Bool) (r : Nat → ReadRes) (bn : Nat) (file : List Nat) (pos : Nat) :
    Bool × List (List Nat) :=
  if hf : file = [] then
    match eotLoop r MAX_RETRIES pos with
    | (ok, ws, _) => (ok, ws)
  else
    match attemptLoop u bn (padChunk (file.take BLOCK_SIZE)) r MAX_RETRIES pos with
    | AttemptOut.acked ws p2 =>
      match sendBlocks u r ((bn + 1) % 256) (file.drop BLOCK_SIZE) p2 with
      | (ok, ws2) => (ok, ws ++ ws2)
    | AttemptOut.canceled ws _ => (false, ws)
    | AttemptOut.exhausted ws _ => (false, ws)
termination_by file.length
decreasing_by
  simp only [List.length_drop, BLOCK_SIZE]
  have : 0 < file.length := List.length_pos.mpr hf
  omega

/-- The sender's handshake loop
`while (waitingForInitiation && retries < MAX_RETRIES)`
(src/unnamed/part_000 lines 276-288): NAK selects checksum mode, C
selects CRC mode, any other byte is ignored without consuming a retry
(so this loop is unbounded under persistent garbage and needs fuel),
and only a failed read increments `retries`.  `some (none, pos)` is
retry exhaustion; `some (some u, pos)` is a negotiated mode. -/
def handshake (r : Nat → ReadRes) : Nat → Nat → Nat → Option (Option Bool × Nat)
  | 0, _, _ => none
  | fuel + 1, retries, pos =>
    if MAX_RETRIES ≤ retries then some (none, pos)
    else
      match r pos with
      | ReadRes.byte b =>
        if b = NAK then some (some false, pos + 1)
        else if b = Cbyte then some (some true, pos + 1)
        else handshake r fuel retries (pos + 1)
      | _ => handshake r fuel (retries + 1) (pos + 1)

/-- `sendFile` of src/unnamed/part_000 (lines 262-377; identical logic
in src/zad2/src/x.cpp lines 164-297).  The first parameter models
whether the input file opened; the source checks `if (!file) return
false` before any channel I/O.  `none` means the handshake loop is
still running after `fuel` iterations. -/
def sendFileP0 (fileOk : Bool) (file : List Nat) (r : Nat → ReadRes) (fuel : Nat) :
    Option (Bool × List (List Nat)) :=
  if fileOk then
    match handshake r fuel 0 0 with
    | none => none
    | some (none, _) => some (false, [])
    | some (some u, pos) => some (sendBlocks u r 1 file pos)
  else some (false, [])

/-- A channel that delivers SOH once and then forever delivers the byte
0, so that every block-reception iteration reads block number 0 and
complement 0, a persistent complement mismatch. -/
def badChan2 : Nat → ReadRes
  | 0 => ReadRes.byte 1
  | _ + 1 => ReadRes.byte 0

/-- Helper: every entry of the source table is the canonical CRC16-CCITT
table entry. -/
theorem crc16tab_canonical : ∀ i : Nat, i < 256 → crc16tab.getD i 0 = crcEntry i := by
  decide

/-- Helper: folding the checksum step starting from `a % 256` sums the
list modulo 256. -/
theorem checksum_foldl_eq (l : List Nat) :
    ∀ a : Nat, l.foldl (fun sum b => (sum + b) % 256) (a % 256) = (a + l.sum) % 256 := by
  induction l with
  | nil => intro a; simp
  | cons b t ih =>
    intro a
    have h1 : (a % 256 + b) % 256 = (a + b) % 256 := Nat.mod_add_mod a 256 b
    simp only [List.foldl_cons, List.sum_cons, h1, ih (a + b)]
    ring_nf

/-- Helper: under a channel that from position `pos` on always delivers
the byte 0, the block-reception loop makes no progress: every iteration
hits the complement mismatch, answers NAK, and loops, for any amount of
fuel. -/
theorem rrunLoop_mismatch_none (c : Nat → ReadRes) :
    ∀ (fuel eb pos : Nat) (f : List Nat),
      (∀ k, pos ≤ k → c k = ReadRes.byte 0) →
      rrunLoop false c fuel ⟨eb, 1, f, pos⟩ = none := by
  intro fuel
  induction fuel with
  | zero => intro eb pos f _; rfl
  | succ n ih =>
    intro eb pos f h
    have h0 : c pos = ReadRes.byte 0 := h pos (Nat.le_refl pos)
    have h1 : c (pos + 1) = ReadRes.byte 0 := h (pos + 1) (by omega)
    have hstep : rstep false c ⟨eb, 1, f, pos⟩ = RStepOut.next [21] ⟨eb, 1, f, pos + 2⟩ := by
      simp [rstep, parseFrame, SOH, h0, h1, modeByte, NAK]
    simp [rrunLoop, hstep, ih eb (pos + 2) f (fun k hk => h k (by omega))]

/-- Helper: a successfully parsed frame carries a payload of exactly
BLOCK_SIZE = 128 bytes, because any other payload-read result takes the
short-read branch. -/
theorem parseFrame_okF_length (u : Bool) (c : Nat → ReadRes) (p bn k : Nat) (d : List Nat)
    (h : parseFrame u c p = ParseRes.okF bn d k) : d.length = 128 := by
  unfold parseFrame at h
  repeat' split at h
  all_goals simp_all [BLOCK_SIZE]

/-- Helper: the duplicate/sequencing policy either keeps the output
unchanged or appends exactly the validated payload. -/
theorem processValidBlock_file (eb : Nat) (file : List Nat) (bn : Nat) (d : List Nat) :
    (processValidBlock eb file bn d).2.2.1 = file ∨
      (processValidBlock eb file bn d).2.2.1 = file ++ d := by
  unfold processValidBlock
  split
  · exact Or.inl rfl
  · split
    · exact Or.inr rfl
    · exact Or.inl rfl

/-- C2 (counterexample): the claim asserts that `calculateChecksum` of
the 128-byte vector of all 0xFF is 0.  In fact 128 * 255 = 32640 ≡ 128
(mod 256), so the code returns 128, not 0. -/
theorem c2_counterexample :
    calculateChecksum (List.replicate 128 255) = 128 ∧ (128 : Nat) ≠ 0 := by
  constructor
  · decide
  · decide

/-- C2 (amended): for every payload, `calculateChecksum` returns the sum
of all bytes truncated to 8 bits; it is a pure function of the payload;
the 128-byte all-0x00 vector gives 0 and the 128-byte all-0xFF vector
gives 128 (= 32640 mod 256), not 0. -/
theorem c2_checksum_sum_mod :
    (∀ data : List Nat, calculateChecksum data = data.sum % 256) ∧
    calculateChecksum (List.replicate 128 0) = 0 ∧
    calculateChecksum (List.replicate 128 255) = 128 := by
  refine ⟨fun data => ?_, by decide, by decide⟩
  have h := checksum_foldl_eq data 0
  simpa [calculateChecksum] using h

/-- C3: `calculateCRC16` starts from 0 and applies the table-driven step
`crc = (crc << 8) ^ table[((crc >> 8) ^ byte) & 0xFF]` truncated to 16
bits, and the source table `crc16tab` coincides entry for entry with the
canonical CRC16-CCITT table for polynomial 0x1021 (`crcEntry`); hence the
whole computation equals the same fold performed with the canonically
generated table. -/
theorem c3_crc16_canonical :
    (∀ i : Fin 256, crc16tab.getD i.val 0 = crcEntry i.val) ∧
    (∀ data : List Nat,
      calculateCRC16 data =
        data.foldl
          (fun crc b => ((crc <<< 8) ^^^ crcEntry (((crc >>> 8) ^^^ b) &&& 255)) % 65536)
          0) := by
  constructor
  · intro i
    exact crc16tab_canonical i.val i.isLt
  · intro data
    unfold calculateCRC16
    suffices h : ∀ crc : Nat,
        data.foldl
          (fun crc b => ((crc <<< 8) ^^^ crc16tab.getD (((crc >>> 8) ^^^ b) &&& 255) 0) % 65536)
          crc =
        data.foldl
          (fun crc b => ((crc <<< 8) ^^^ crcEntry (((crc >>> 8) ^^^ b) &&& 255)) % 65536)
          crc from h 0
    induction data with
    | nil => intro crc; rfl
    | cons b t ih =>
      intro crc
      have hidx : ((crc >>> 8) ^^^ b) &&& 255 < 256 :=
        Nat.lt_succ_of_le Nat.and_le_right
      simp only [List.foldl_cons, crc16tab_canonical _ hidx, ih]

/-- C1 (counterexample): on the channel `badChan2`, which delivers SOH
and then persistently delivers headers with a complement mismatch, the
block-reception loop of `receiveFile` is still running after 50
iterations — far beyond the claimed per-block budget of 10 — without
ever reporting failure, and a single failing iteration returns to an
identical loop state two reads later, so no retry counter is consulted. -/
theorem c1_counterexample :
    receiveFileP0 true false badChan2 50 = none ∧
    rstep false badChan2 ⟨1, 1, [], 1⟩ = RStepOut.next [21] ⟨1, 1, [], 3⟩ := by
  constructor
  · decide
  · rfl

/-- C1 (amended): the receiver's block-reception loop has no retry
counter.  Every recoverable mid-block condition answers with the
retransmission-request byte and loops again, so under a channel input
that persistently produces such a condition (here: complement-mismatch
headers after SOH) `receiveFile` never terminates and never reports
failure, for every fuel bound; failure can only be reported from the
start phase. -/
theorem c1_receiver_retry_unbounded :
    ∀ fuel : Nat, receiveFileP0 true false badChan2 fuel = none := by
  intro fuel
  have hs : rstart false badChan2 6 0 = StartOut.enter [21] 1 := rfl
  have hloop := rrunLoop_mismatch_none badChan2 fuel 1 1 []
    (by
      intro k hk
      cases k with
      | zero => omega
      | succ m => rfl)
  simp [receiveFileP0, SOH, hs, hloop]

/-- C4: the sender writes `255 - blockNumber` as the complement byte of
every frame it builds, in both checksum and CRC mode; and a receiver
that reads a block number and complement not summing to 255 answers
with the mode byte (re-requesting transmission), leaving the expected
block, the output data, and the header byte unchanged. -/
theorem c4_complement :
    (∀ (bn : Nat) (buf : List Nat), bn ≤ 255 →
      (mkPacket true bn buf).get? 2 = some (255 - bn) ∧
      (mkPacket false bn buf).get? 2 = some (255 - bn)) ∧
    (∀ (u : Bool) (c : Nat → ReadRes) (st : RState) (bn comp : Nat),
      st.headerByte = SOH →
      c st.pos = ReadRes.byte bn →
      c (st.pos + 1) = ReadRes.byte comp →
      bn + comp ≠ 255 →
      rstep u c st = RStepOut.next [modeByte u] { st with pos := st.pos + 2 }) := by
  constructor
  · intro bn buf _
    exact ⟨rfl, rfl⟩
  · intro u c st bn comp hh h0 h1 hne
    simp [rstep, hh, SOH, parseFrame, h0, h1, hne]

/-- C4 (witness): concrete instances — the complement byte of block 3 is
252 in both modes, and a receiver state facing header bytes 0, 0
(0 + 0 ≠ 255) answers NAK and keeps its state. -/
theorem c4_witness :
    (mkPacket true 3 []).get? 2 = some 252 ∧
    (mkPacket false 3 []).get? 2 = some 252 ∧
    rstep false (fun _ => ReadRes.byte 0) ⟨1, 1, [], 0⟩ =
      RStepOut.next [21] ⟨1, 1, [], 2⟩ := by
  refine ⟨(c4_complement.1 3 [] (by decide)).1, (c4_complement.1 3 [] (by decide)).2, ?_⟩
  exact c4_complement.2 false (fun _ => ReadRes.byte 0) ⟨1, 1, [], 0⟩ 0 0 rfl rfl rfl (by decide)

/-- C5: the duplicate/sequencing policy for a validated block: a
duplicate (`bn + 1 = expectedBlock` with `expectedBlock > 1`) is ACKed
without growing the output; the expected block is ACKed, appended, and
the expected block number advances (uint8 increment); any other block
number is NAKed with output and expected block unchanged. -/
theorem c5_sequencing :
    ∀ (eb : Nat) (file : List Nat) (bn : Nat) (d : List Nat),
      (bn + 1 = eb ∧ 1 < eb →
        processValidBlock eb file bn d = ([ACK], eb, file, true)) ∧
      (bn = eb →
        processValidBlock eb file bn d = ([ACK], (eb + 1) % 256, file ++ d, true)) ∧
      (¬(bn + 1 = eb ∧ 1 < eb) → bn ≠ eb →
        processValidBlock eb file bn d = ([NAK], eb, file, false)) := by
  intro eb file bn d
  refine ⟨fun h => ?_, fun h => ?_, fun h1 h2 => ?_⟩
  · simp [processValidBlock, h]
  · subst h
    have hne : ¬(bn + 1 = bn ∧ 1 < bn) := by omega
    simp [processValidBlock, hne]
  · simp [processValidBlock, h1, h2]

/-- C5 (witness): the three policy cases at concrete inputs — a
duplicate of block 1 when expecting 2, an in-sequence block 1 when
expecting 1, and an out-of-sequence block 5 when expecting 1. -/
theorem c5_witness :
    processValidBlock 2 [7] 1 [9] = ([6], 2, [7], true) ∧
    processValidBlock 1 [] 1 [9] = ([6], 2, [9], true) ∧
    processValidBlock 1 [] 5 [9] = ([21], 1, [], false) := by
  refine ⟨(c5_sequencing 2 [7] 1 [9]).1 (by omega),
    ((c5_sequencing 1 [] 1 [9]).2).1 rfl,
    ((c5_sequencing 1 [] 5 [9]).2).2 (by omega) (by omega)⟩

/-- Helper: against a peer that answers every read with NAK, the
per-block attempt loop with budget `n` writes the same frame exactly `n`
times and exhausts. -/
theorem attemptLoop_allNAK (u : Bool) (bn : Nat) (buf : List Nat) (r : Nat → ReadRes) :
    ∀ (n pos : Nat), (∀ k, r (pos + k) = ReadRes.byte NAK) →
      attemptLoop u bn buf r n pos =
        AttemptOut.exhausted (List.replicate n (mkPacket u bn buf)) (pos + n) := by
  intro n
  induction n with
  | zero => intro pos _; rfl
  | succ m ih =>
    intro pos h
    have h0 : r pos = ReadRes.byte NAK := by
      have := h 0
      simpa using this
    have hrec := ih (pos + 1) (fun k => by
      have := h (1 + k)
      simpa [Nat.add_assoc] using this)
    simp only [attemptLoop, h0]
    norm_num [NAK, ACK, CAN, hrec, AttemptOut.prep, List.replicate_succ]
    omega

/-- C6: a sender facing a peer that answers only NAK sends the frame of
the current block exactly MAX_RETRIES = 10 times and then gives up: the
attempt loop for any block exhausts after exactly 10 identical packet
writes, and at the level of `sendFile` (with the NAK also serving as the
checksum-mode handshake) the whole call returns false with exactly those
10 packet writes on the channel. -/
theorem c6_sender_retry_bound :
    (∀ (u : Bool) (bn : Nat) (buf : List Nat) (r : Nat → ReadRes) (pos : Nat),
      (∀ k, r (pos + k) = ReadRes.byte NAK) →
      attemptLoop u bn buf r MAX_RETRIES pos =
        AttemptOut.exhausted
          (List.replicate MAX_RETRIES (mkPacket u bn buf)) (pos + MAX_RETRIES)) ∧
    (∀ (file : List Nat) (r : Nat → ReadRes) (fuel : Nat),
      (∀ k, r k = ReadRes.byte NAK) → file ≠ [] →
      sendFileP0 true file r (fuel + 1) =
        some (false,
          List.replicate MAX_RETRIES
            (mkPacket false 1 (padChunk (file.take BLOCK_SIZE))))) := by
  constructor
  · intro u bn buf r pos h
    exact attemptLoop_allNAK u bn buf r MAX_RETRIES pos h
  · intro file r fuel h hne
    have h0 : r 0 = ReadRes.byte NAK := h 0
    have hh : handshake r (fuel + 1) 0 0 = some (some false, 1) := by
      simp [handshake, h0, MAX_RETRIES, NAK]
    have hat := attemptLoop_allNAK false 1 (padChunk (file.take BLOCK_SIZE)) r MAX_RETRIES 1
      (fun k => h (1 + k))
    simp only [sendFileP0, hh, if_true]
    rw [sendBlocks]
    simp [hne, hat]

/-- C6 (witness): a one-byte file sent to an all-NAK peer — `sendFile`
returns false after writing the padded block-1 packet exactly ten
times. -/
theorem c6_witness :
    sendFileP0 true [5] (fun _ => ReadRes.byte 21) 1 =
      some (false,
        List.replicate MAX_RETRIES
          (mkPacket false 1 (padChunk (List.take BLOCK_SIZE [5])))) := by
  have h := c6_sender_retry_bound.2 [5] (fun _ => ReadRes.byte 21) 0
    (fun k => rfl) (by simp)
  simpa using h

/-- C7: if the receiver's start phase reads EOT as the very first byte
after announcing its mode, `receiveFile` immediately writes ACK,
returns true, and the output file is empty — the channel-write log is
exactly the mode byte followed by ACK. -/
theorem c7_eot_empty_file :
    ∀ (u : Bool) (c : Nat → ReadRes) (fuel : Nat),
      c 0 = ReadRes.byte EOT →
      receiveFileP0 true u c fuel = some (true, [], [modeByte u, ACK]) := by
  intro u c fuel h0
  have hs : rstart u c 6 0 = StartOut.emptyDone [modeByte u, ACK] := by
    rw [show (6 : Nat) = 5 + 1 from rfl]
    simp [rstart, h0, EOT, SOH]
  simp [receiveFileP0, hs]

/-- C7 (witness): the concrete empty-file session — a channel whose
first byte is EOT makes the checksum-mode receiver ACK and succeed with
no output. -/
theorem c7_witness :
    receiveFileP0 true false (fun _ => ReadRes.byte 4) 1 = some (true, [], [21, 6]) := by
  have h := c7_eot_empty_file false (fun _ => ReadRes.byte 4) 1 rfl
  simpa [modeByte, NAK, ACK] using h

/-- C8 (counterexample): in src/unnamed/part_000, `receiveFile` never
checks whether the output sink opened.  With the sink-open flag false,
the session still runs: on an immediate-EOT channel it writes the
protocol bytes NAK and ACK and returns true, instead of failing at
session start before any protocol byte. -/
theorem c8_counterexample :
    receiveFileP0 false false (fun _ => ReadRes.byte 4) 1 = some (true, [], [21, 6]) ∧
    ([21, 6] : List Nat) ≠ [] := by
  constructor
  · decide
  · decide

/-- C8 (amended): `sendFile` (both sources) fails before any channel
I/O when the input file cannot be opened, and `XModem::receiveFile` of
src/zad2/src/x.cpp fails before any channel I/O when the output sink
cannot be opened; but `receiveFile` of src/unnamed/part_000 never
inspects the sink state and behaves identically whether or not the sink
opened. -/
theorem c8_open_failure :
    (∀ (file : List Nat) (r : Nat → ReadRes) (fuel : Nat),
      sendFileP0 false file r fuel = some (false, [])) ∧
    (∀ (u : Bool) (c : Nat → ReadRes) (fuel : Nat),
      receiveFileZ2 false u c fuel = some (false, [], [])) ∧
    (∀ (ok u : Bool) (c : Nat → ReadRes) (fuel : Nat),
      receiveFileP0 ok u c fuel = receiveFileP0 true u c fuel) := by
  exact ⟨fun _ _ _ => rfl, fun _ _ _ => rfl, fun _ _ _ _ => rfl⟩

/-- Helper: unfolding equation of `rrunLoop` when the iteration
finishes. -/
theorem rrunLoop_succ_finish (u : Bool) (c : Nat → ReadRes) (fuel : Nat) (st : RState)
    (ws : List Nat) (st2 : RState) (hr : rstep u c st = RStepOut.finish ws st2) :
    rrunLoop u c (fuel + 1) st = some (true, ws, st2) := by
  simp only [rrunLoop, hr]

/-- Helper: unfolding equation of `rrunLoop` when the iteration
continues. -/
theorem rrunLoop_succ_next (u : Bool) (c : Nat → ReadRes) (fuel : Nat) (st : RState)
    (ws : List Nat) (st2 : RState) (hr : rstep u c st = RStepOut.next ws st2) :
    rrunLoop u c (fuel + 1) st =
      match rrunLoop u c fuel st2 with
      | none => none
      | some (b, ws2, st3) => some (b, ws ++ ws2, st3) := by
  simp only [rrunLoop, hr]

/-- Helper: unfolding equation of `receiveFileP0` when the start phase
fails. -/
theorem receiveFileP0_failed (ok u : Bool) (c : Nat → ReadRes) (fuel : Nat)
    (ws0 : List Nat) (hs : rstart u c 6 0 = StartOut.failed ws0) :
    receiveFileP0 ok u c fuel = some (false, [], ws0) := by
  simp only [receiveFileP0, hs]

/-- Helper: unfolding equation of `receiveFileP0` in the empty-file
case. -/
theorem receiveFileP0_emptyDone (ok u : Bool) (c : Nat → ReadRes) (fuel : Nat)
    (ws0 : List Nat) (hs : rstart u c 6 0 = StartOut.emptyDone ws0) :
    receiveFileP0 ok u c fuel = some (true, [], ws0) := by
  simp only [receiveFileP0, hs]

/-- Helper: unfolding equation of `receiveFileP0` once the block loop is
entered. -/
theorem receiveFileP0_enter (ok u : Bool) (c : Nat → ReadRes) (fuel : Nat)
    (ws0 : List Nat) (pos : Nat) (hs : rstart u c 6 0 = StartOut.enter ws0 pos) :
    receiveFileP0 ok u c fuel =
      match rrunLoop u c fuel ⟨1, SOH, [], pos⟩ with
      | none => none
      | some (b, ws2, st) => some (b, st.fileData, ws0 ++ ws2) := by
  simp only [receiveFileP0, hs]

/-- Helper: whatever the next-header read yields, the output data of
the resulting state is the data fixed by the sequencing policy. -/
theorem afterPolicy_fileData (c : Nat → ReadRes) (oh p : Nat) (ws : List Nat)
    (eb2 : Nat) (f2 : List Nat) :
    (afterPolicy c oh p ws eb2 f2).state.fileData = f2 := by
  unfold afterPolicy
  split
  · split_ifs <;> rfl
  · rfl

/-- Helper: one receiver-loop iteration either leaves the output data
unchanged or appends exactly one 128-byte validated payload. -/
theorem rstep_fileData (u : Bool) (c : Nat → ReadRes) (st : RState) :
    (rstep u c st).state.fileData = st.fileData ∨
    ∃ d : List Nat, d.length = 128 ∧ (rstep u c st).state.fileData = st.fileData ++ d := by
  unfold rstep
  split
  · split
    · left; rfl
    · left; rfl
    · rename_i bn d k heq
      have hd : d.length = 128 := parseFrame_okF_length u c st.pos bn k d heq
      have hf := processValidBlock_file st.expectedBlock st.fileData bn d
      split
      · rcases hf with hf | hf
        · left
          rw [afterPolicy_fileData]
          exact hf
        · right
          refine ⟨d, hd, ?_⟩
          rw [afterPolicy_fileData]
          exact hf
      · left
        rfl
  · split
    · left; rfl
    · split
      · left; rfl
      · left; rfl

/-- Helper: a terminating run of the block loop starting from output
data of length divisible by 128 ends with output data of length
divisible by 128. -/
theorem rrunLoop_fileData (u : Bool) (c : Nat → ReadRes) :
    ∀ (fuel : Nat) (st : RState) (out : Bool × List Nat × RState),
      rrunLoop u c fuel st = some out → 128 ∣ st.fileData.length →
      128 ∣ out.2.2.fileData.length := by
  intro fuel
  induction fuel with
  | zero => intro st out h _; cases h
  | succ n ih =>
    intro st out h hdvd
    cases hr : rstep u c st with
    | finish ws st2 =>
      have hstep := rstep_fileData u c st
      rw [hr] at hstep
      simp only [RStepOut.state] at hstep
      rw [rrunLoop_succ_finish u c n st ws st2 hr] at h
      cases h
      show 128 ∣ st2.fileData.length
      rcases hstep with he | ⟨d, hdl, he⟩
      · rw [he]; exact hdvd
      · rw [he]
        simp only [List.length_append, hdl]
        exact Nat.dvd_add hdvd (Nat.dvd_refl 128)
    | next ws st2 =>
      have hstep := rstep_fileData u c st
      rw [hr] at hstep
      simp only [RStepOut.state] at hstep
      have hst2 : 128 ∣ st2.fileData.length := by
        rcases hstep with he | ⟨d, hdl, he⟩
        · rw [he]; exact hdvd
        · rw [he]
          simp only [List.length_append, hdl]
          exact Nat.dvd_add hdvd (Nat.dvd_refl 128)
      rw [rrunLoop_succ_next u c n st ws st2 hr] at h
      cases hrr : rrunLoop u c n st2 with
      | none =>
        rw [hrr] at h
        exact Option.noConfusion h
      | some out2 =>
        rcases out2 with ⟨b2, ws2, st3⟩
        rw [hrr] at h
        have h2 : some (b2, ws ++ ws2, st3) = some out := h
        cases h2
        show 128 ∣ st3.fileData.length
        exact ih st2 (b2, ws2, st3) hrr hst2

/-- Helper: every terminating `receiveFile` session produces an output
whose length is a multiple of 128. -/
theorem receiveFile_fileData_dvd (ok u : Bool) (c : Nat → ReadRes) (fuel : Nat)
    (b : Bool) (f ws : List Nat)
    (h : receiveFileP0 ok u c fuel = some (b, f, ws)) : 128 ∣ f.length := by
  cases hs : rstart u c 6 0 with
  | failed ws0 =>
    rw [receiveFileP0_failed ok u c fuel ws0 hs] at h
    cases h
    simp
  | emptyDone ws0 =>
    rw [receiveFileP0_emptyDone ok u c fuel ws0 hs] at h
    cases h
    simp
  | enter ws0 pos =>
    rw [receiveFileP0_enter ok u c fuel ws0 pos hs] at h
    cases hr : rrunLoop u c fuel ⟨1, SOH, [], pos⟩ with
    | none =>
      rw [hr] at h
      exact Option.noConfusion h
    | some out =>
      rcases out with ⟨b2, ws2, st3⟩
      rw [hr] at h
      have h2 : some (b2, st3.fileData, ws0 ++ ws2) = some (b, f, ws) := h
      simp only [Option.some.injEq, Prod.mk.injEq] at h2
      have hdv := rrunLoop_fileData u c fuel ⟨1, SOH, [], pos⟩ (b2, ws2, st3) hr (by simp)
      rw [← h2.2.1]
      simpa using hdv

/-- C9: every change the receiver's loop makes to the output sink is the
append of exactly one fully validated 128-byte payload, and consequently
every terminating `receiveFile` session ends with an output file whose
length is a multiple of 128 (the start phase writes nothing to the
sink). -/
theorem c9_output_multiple_of_128 :
    (∀ (u : Bool) (c : Nat → ReadRes) (st : RState),
      (rstep u c st).state.fileData = st.fileData ∨
      ∃ d : List Nat, d.length = 128 ∧
        (rstep u c st).state.fileData = st.fileData ++ d) ∧
    (∀ (ok u : Bool) (c : Nat → ReadRes) (fuel : Nat) (b : Bool) (f ws : List Nat),
      receiveFileP0 ok u c fuel = some (b, f, ws) → 128 ∣ f.length) :=
  ⟨rstep_fileData,
   fun ok u c fuel b f ws h => receiveFile_fileData_dvd ok u c fuel b f ws h⟩

/-- C9 (witness): a concrete terminating session (immediate EOT) has an
output length divisible by 128, and a concrete loop step either keeps
or 128-extends the output. -/
theorem c9_witness :
    (128 : Nat) ∣ ([] : List Nat).length ∧
    ((rstep false (fun _ => ReadRes.byte 4) ⟨1, 1, [], 0⟩).state.fileData = [] ∨
      ∃ d : List Nat, d.length = 128 ∧
        (rstep false (fun _ => ReadRes.byte 4) ⟨1, 1, [], 0⟩).state.fileData = [] ++ d) := by
  constructor
  · exact c9_output_multiple_of_128.2 true false (fun _ => ReadRes.byte 4) 1 true [] [21, 6]
      (by decide)
  · exact c9_output_multiple_of_128.1 false (fun _ => ReadRes.byte 4) ⟨1, 1, [], 0⟩

/-- C10: once the block-reception loop is entered, every terminating
execution returns true (the loop has no failing exit); `receiveFile`
reports failure only when the start phase itself failed. -/
theorem c10_failure_only_from_start :
    (∀ (u : Bool) (c : Nat → ReadRes) (fuel : Nat) (st : RState)
        (out : Bool × List Nat × RState),
      rrunLoop u c fuel st = some out → out.1 = true) ∧
    (∀ (ok u : Bool) (c : Nat → ReadRes) (fuel : Nat) (b : Bool) (f ws : List Nat),
      receiveFileP0 ok u c fuel = some (b, f, ws) → b = false →
      ∃ ws0, rstart u c 6 0 = StartOut.failed ws0) := by
  have hloop : ∀ (u : Bool) (c : Nat → ReadRes) (fuel : Nat) (st : RState)
      (out : Bool × List Nat × RState), rrunLoop u c fuel st = some out → out.1 = true := by
    intro u c fuel
    induction fuel with
    | zero => intro st out h; cases h
    | succ n ih =>
      intro st out h
      cases hr : rstep u c st with
      | finish ws st2 =>
        rw [rrunLoop_succ_finish u c n st ws st2 hr] at h
        cases h
        rfl
      | next ws st2 =>
        rw [rrunLoop_succ_next u c n st ws st2 hr] at h
        cases hrr : rrunLoop u c n st2 with
        | none =>
          rw [hrr] at h
          exact Option.noConfusion h
        | some out2 =>
          rcases out2 with ⟨b2, ws2, st3⟩
          rw [hrr] at h
          have h2 : some (b2, ws ++ ws2, st3) = some out := h
          cases h2
          exact ih st2 (b2, ws2, st3) hrr
  refine ⟨hloop, ?_⟩
  intro ok u c fuel b f ws h hb
  cases hs : rstart u c 6 0 with
  | failed ws0 => exact ⟨ws0, rfl⟩
  | emptyDone ws0 =>
    rw [receiveFileP0_emptyDone ok u c fuel ws0 hs] at h
    cases h
    simp at hb
  | enter ws0 pos =>
    rw [receiveFileP0_enter ok u c fuel ws0 pos hs] at h
    cases hr : rrunLoop u c fuel ⟨1, SOH, [], pos⟩ with
    | none =>
      rw [hr] at h
      exact Option.noConfusion h
    | some out =>
      rcases out with ⟨b2, ws2, st3⟩
      rw [hr] at h
      have h2 : some (b2, st3.fileData, ws0 ++ ws2) = some (b, f, ws) := h
      simp only [Option.some.injEq, Prod.mk.injEq] at h2
      have hb2 : b2 = true := hloop u c fuel ⟨1, SOH, [], pos⟩ (b2, ws2, st3) hr
      rw [h2.1] at hb2
      rw [hb2] at hb
      exact Bool.noConfusion hb

/-- C10 (witness): a concrete terminating loop run (EOT in hand) yields
true, and a concrete failing session (all reads time out) fails from
the start phase. -/
theorem c10_witness :
    ((true, ([6] : List Nat), (⟨1, 4, [], 0⟩ : RState)).1 = true) ∧
    ∃ ws0, rstart false (fun _ => ReadRes.fail) 6 0 = StartOut.failed ws0 := by
  constructor
  · exact c10_failure_only_from_start.1 false (fun _ => ReadRes.byte 9) 1 ⟨1, 4, [], 0⟩
      (true, [6], ⟨1, 4, [], 0⟩) (by decide)
  · exact c10_failure_only_from_start.2 true false (fun _ => ReadRes.fail) 1 false []
      (List.replicate 6 21) (by decide) rfl

end XModemTiPS
